import Mathlib

/-!
Verification of the real-time session / matchmaking engine and the
constrained graph pathfinder of the deep-pull backend.

The definitions below are a shallow embedding of
`src/backend/src/services/game-manager.ts`,
`src/backend/src/services/pathfinding.ts` (the variant taking
`allowedConnectionTypes`, see `src/unnamed/part_014`) and the socket event
registration in `src/backend/src/app.ts`.

The database of player connections is modelled as a list of rows of the
`player_connections` table; TypeORM `findOne` over that table becomes
`List.find?`, and the recursive SQL CTE used by the pathfinder becomes a
level-by-level (working-table) enumeration of rows.  `socket.io` emissions
are modelled as a list of `(socketId, Frame)` pairs returned by each
operation, and the in-place mutation of session objects becomes explicit
state passing on `GMState`.
-/

namespace DeepPull

/-- Row of the `player_connections` table. -/
structure Connection where
  player1_id : String
  player2_id : String
  connection_type : String
deriving DecidableEq, Repr

/-- The connection graph: the loaded snapshot of `player_connections`. -/
abbrev Graph := List Connection

/-- Row of the `players` table (only the fields the engine reads). -/
structure Player where
  id : String
  name : String
deriving DecidableEq, Repr

/-- Game difficulty, from `game-manager.ts`. -/
inductive Difficulty
  | easy
  | medium
  | hard
deriving DecidableEq, Repr

/-- Game mode, from `game-manager.ts`. -/
inductive GameMode
  | single
  | multiplayer
deriving DecidableEq, Repr

/-- Session status, from the `GameSession` interface. -/
inductive Status
  | waiting
  | active
  | finished
deriving DecidableEq, Repr

/-- The `getConnectionTypesForDifficulty` helper of `game-manager.ts`. -/
def getConnectionTypesForDifficulty : Difficulty → List String
  | Difficulty.easy => ["teammate", "college", "draft_class", "position"]
  | Difficulty.medium => ["teammate", "college"]
  | Difficulty.hard => ["teammate"]

/-- The `getStrikesForDifficulty` helper of `game-manager.ts`. -/
def getStrikesForDifficulty : Difficulty → Int
  | Difficulty.easy => 10
  | Difficulty.medium => 5
  | Difficulty.hard => 3

/-- The `findOne` query issued per step by `PathfindingService.validatePath`:
the first connection row joining `p1` and `p2` in either orientation whose
type is in `allowed` (the type filter is added only when `allowed` is
non-empty). -/
def findConnection (g : Graph) (allowed : List String) (p1 p2 : String) :
    Option Connection :=
  g.find? (fun c =>
    (c.player1_id == p1 && c.player2_id == p2 &&
      (allowed.isEmpty || allowed.contains c.connection_type)) ||
    (c.player1_id == p2 && c.player2_id == p1 &&
      (allowed.isEmpty || allowed.contains c.connection_type)))

/-- The `for` loop of `validatePath`: every consecutive pair of the path must
have a connection row. -/
def checkSteps (g : Graph) (allowed : List String) : List String → Bool
  | a :: b :: rest =>
      (findConnection g allowed a b).isSome && checkSteps g allowed (b :: rest)
  | _ => true

/-- `PathfindingService.validatePath` from `src/unnamed/part_014`. -/
def validatePath (g : Graph) (path : List String) (startId endId : String)
    (allowed : List String) : Bool :=
  if path.length < 2 then false
  else if path.head? ≠ some startId ∨ path.getLast? ≠ some endId then false
  else checkSteps g allowed path

/-- Row of the recursive CTE `search_graph(end_node, path, depth)` used by
`PathfindingService.findShortestPaths`. -/
structure Row where
  endNode : String
  path : List String
  depth : Nat
deriving DecidableEq, Repr

/-- One recursive step of the CTE for a single working-table row, joined
against every `player_connections` row: follow the connection from the
current end node, reject cycles, depth 5 and (when the filter is present)
disallowed connection types. -/
def rowStep (g : Graph) (allowed : List String) (r : Row) : List Row :=
  g.filterMap (fun c =>
    if r.endNode == c.player1_id || r.endNode == c.player2_id then
      let next := if r.endNode == c.player1_id then c.player2_id else c.player1_id
      if !(r.path.contains next) && decide (r.depth < 5) &&
          (allowed.isEmpty || allowed.contains c.connection_type) then
        some { endNode := next, path := r.path ++ [next], depth := r.depth + 1 }
      else none
    else none)

/-- Iterated working-table evaluation of the recursive CTE: the output is the
concatenation of the successive working tables (levels). -/
def searchAux (g : Graph) (allowed : List String) : Nat → List Row → List Row
  | 0, _ => []
  | n + 1, rows => rows ++ searchAux g allowed n (rows.flatMap (rowStep g allowed))

/-- All rows produced by the CTE anchored at `startId`.  The depth guard
`sg.depth < 5` empties the working table after level 5, so seven iterations
reach the fixpoint. -/
def searchGraph (g : Graph) (allowed : List String) (startId : String) : List Row :=
  searchAux g allowed 7 [{ endNode := startId, path := [startId], depth := 0 }]

/-- `PathfindingService.findShortestPaths`: rows of the CTE whose end node is
`endPlayerId` at depth `> 0`, limited to `limit` rows, projected to paths. -/
def findShortestPaths (g : Graph) (startPlayerId endPlayerId : String)
    (limit : Nat) (allowed : List String) : List (List String) :=
  (((searchGraph g allowed startPlayerId).filter
      (fun r => r.endNode == endPlayerId && !(r.depth == 0))).map Row.path).take limit

/-- `PathfindingService.findShortestPath`: first result of
`findShortestPaths` with limit 1, or `[]`. -/
def findShortestPath (g : Graph) (startPlayerId endPlayerId : String)
    (allowed : List String) : List String :=
  (findShortestPaths g startPlayerId endPlayerId 1 allowed).headD []

/-- `PathfindingService.convertIdsToNames`: map each id to the name of the
first player row carrying it, or keep the id when no row is found. -/
def convertIdsToNames (tbl : List Player) (paths : List (List String)) :
    List (List String) :=
  paths.map (fun path => path.map (fun pid =>
    match tbl.find? (fun p => p.id == pid) with
    | some p => p.name
    | none => pid))

/-- Spec-side predicate for validity rule 4: some edge joins `a` and `b`
(in either orientation) with a type in `allowed`. -/
def sessionEdgeOk (g : Graph) (allowed : List String) (a b : String) : Prop :=
  ∃ c ∈ g,
    ((c.player1_id = a ∧ c.player2_id = b) ∨
     (c.player1_id = b ∧ c.player2_id = a)) ∧
    c.connection_type ∈ allowed

theorem connectionTypes_ne_nil (d : Difficulty) :
    getConnectionTypesForDifficulty d ≠ [] := by
  cases d <;> simp [getConnectionTypesForDifficulty]

theorem findConnection_isSome_iff (g : Graph) (allowed : List String)
    (hne : allowed ≠ []) (a b : String) :
    (findConnection g allowed a b).isSome = true ↔ sessionEdgeOk g allowed a b := by
  rw [findConnection, List.find?_isSome]
  have hemp : allowed.isEmpty = false := by
    simpa [List.isEmpty_iff] using hne
  constructor
  · rintro ⟨c, hc, hpred⟩
    simp only [hemp, Bool.false_or, Bool.or_eq_true, Bool.and_eq_true,
      beq_iff_eq, List.elem_iff] at hpred
    rcases hpred with ⟨⟨h1, h2⟩, h3⟩ | ⟨⟨h1, h2⟩, h3⟩
    · exact ⟨c, hc, Or.inl ⟨h1, h2⟩, h3⟩
    · exact ⟨c, hc, Or.inr ⟨h1, h2⟩, h3⟩
  · rintro ⟨c, hc, horient, htype⟩
    refine ⟨c, hc, ?_⟩
    simp only [hemp, Bool.false_or, Bool.or_eq_true, Bool.and_eq_true,
      beq_iff_eq, List.elem_iff]
    rcases horient with ⟨h1, h2⟩ | ⟨h1, h2⟩
    · exact Or.inl ⟨⟨h1, h2⟩, htype⟩
    · exact Or.inr ⟨⟨h1, h2⟩, htype⟩

theorem checkSteps_iff (g : Graph) (allowed : List String) (l : List String) :
    checkSteps g allowed l = true ↔
      List.Chain' (fun a b => (findConnection g allowed a b).isSome = true) l := by
  match l with
  | [] => simp [checkSteps]
  | [a] => simp [checkSteps]
  | a :: b :: rest =>
      rw [checkSteps, Bool.and_eq_true, List.chain'_cons,
        checkSteps_iff g allowed (b :: rest)]

theorem chain'_iff_of_pointwise {α : Type} (P Q : α → α → Prop)
    (h : ∀ a b, P a b ↔ Q a b) (l : List α) :
    List.Chain' P l ↔ List.Chain' Q l :=
  ⟨fun hc => hc.imp (fun ha hb => (h ha hb).mp), fun hc => hc.imp (fun ha hb => (h ha hb).mpr)⟩

/-- C1: a path submission is accepted by `validatePath` with a session's
allowed connection types exactly when the four validity rules hold: length
at least 2, first element is the session's start id, last element is the
session's end id, and every consecutive pair is joined by an edge whose
type is allowed for the difficulty. -/
theorem validatePath_iff_rules (g : Graph) (d : Difficulty)
    (path : List String) (s e : String) :
    validatePath g path s e (getConnectionTypesForDifficulty d) = true ↔
      2 ≤ path.length ∧ path.head? = some s ∧ path.getLast? = some e ∧
      List.Chain' (sessionEdgeOk g (getConnectionTypesForDifficulty d)) path := by
  rw [validatePath]
  by_cases hlen : path.length < 2
  · simp only [hlen, if_true]
    constructor
    · intro h
      exact absurd h (by simp)
    · rintro ⟨h2, -⟩
      omega
  · simp only [hlen, if_false]
    by_cases hh : path.head? = some s ∧ path.getLast? = some e
    · have hcond : ¬(path.head? ≠ some s ∨ path.getLast? ≠ some e) := by
        push_neg
        exact hh
      simp only [hcond, if_false]
      rw [checkSteps_iff, chain'_iff_of_pointwise _ _
        (findConnection_isSome_iff g _ (connectionTypes_ne_nil d))]
      constructor
      · intro hc
        exact ⟨by omega, hh.1, hh.2, hc⟩
      · rintro ⟨-, -, -, hc⟩
        exact hc
    · have hcond : path.head? ≠ some s ∨ path.getLast? ≠ some e := by
        by_contra hcon
        push_neg at hcon
        exact hh ⟨hcon.1, hcon.2⟩
      simp only [hcond, if_true]
      constructor
      · intro h
        exact absurd h (by simp)
      · rintro ⟨-, h1, h2, -⟩
        exact absurd ⟨h1, h2⟩ hh

/-- Edge predicate enforced by the recursive step of the CTE: some row joins
`a` and `b`, and when the type filter is present its type is allowed. -/
def cteEdgeOk (g : Graph) (allowed : List String) (a b : String) : Prop :=
  ∃ c ∈ g,
    ((c.player1_id = a ∧ c.player2_id = b) ∨
     (c.player1_id = b ∧ c.player2_id = a)) ∧
    (allowed = [] ∨ c.connection_type ∈ allowed)

/-- Invariant of every row of the working table of the CTE anchored at `s`. -/
structure RowInv (g : Graph) (allowed : List String) (s : String) (r : Row) : Prop where
  head : r.path.head? = some s
  last : r.path.getLast? = some r.endNode
  nodup : r.path.Nodup
  len : r.path.length = r.depth + 1
  depth_le : r.depth ≤ 5
  chain : List.Chain' (cteEdgeOk g allowed) r.path

theorem mem_of_getLast?_eq {α : Type} {l : List α} {a : α}
    (h : l.getLast? = some a) : a ∈ l := by
  obtain ⟨hne, heq⟩ := List.mem_getLast?_eq_getLast (show a ∈ l.getLast? from h)
  exact heq ▸ List.getLast_mem hne

theorem rowStep_inv {g : Graph} {allowed : List String} {s : String} {r r' : Row}
    (hr : RowInv g allowed s r) (hmem : r' ∈ rowStep g allowed r) :
    RowInv g allowed s r' := by
  rw [rowStep, List.mem_filterMap] at hmem
  obtain ⟨c, hcg, hc⟩ := hmem
  by_cases h1 : (r.endNode == c.player1_id || r.endNode == c.player2_id) = true
  swap
  · rw [if_neg h1] at hc
    exact absurd hc (by simp)
  rw [if_pos h1] at hc
  set next := if r.endNode == c.player1_id then c.player2_id else c.player1_id with hnext
  by_cases h2 : (!(r.path.contains next) && decide (r.depth < 5) &&
      (allowed.isEmpty || allowed.contains c.connection_type)) = true
  swap
  · rw [if_neg h2] at hc
    exact absurd hc (by simp)
  rw [if_pos h2] at hc
  have hrec := Option.some.inj hc
  simp only [Bool.and_eq_true, Bool.not_eq_true'] at h2
  obtain ⟨⟨hnc, hdep⟩, htype⟩ := h2
  have hdep' : r.depth < 5 := by simpa using hdep
  have hnotmem : next ∉ r.path := by
    intro hm
    have hcont : r.path.contains next = true := List.elem_iff.mpr hm
    rw [hcont] at hnc
    simp at hnc
  have hedge : cteEdgeOk g allowed r.endNode next := by
    refine ⟨c, hcg, ?_, ?_⟩
    · by_cases hb : (r.endNode == c.player1_id) = true
      · have he : r.endNode = c.player1_id := by simpa using hb
        have : next = c.player2_id := by rw [hnext, if_pos hb]
        exact Or.inl ⟨he.symm, this.symm⟩
      · have hb2 : (r.endNode == c.player2_id) = true := by
          rcases Bool.or_eq_true _ _ |>.mp h1 with h | h
          · exact absurd h hb
          · exact h
        have he : r.endNode = c.player2_id := by simpa using hb2
        have : next = c.player1_id := by rw [hnext, if_neg hb]
        exact Or.inr ⟨this.symm, he.symm⟩
    · rcases Bool.or_eq_true _ _ |>.mp htype with h | h
      · exact Or.inl (by simpa [List.isEmpty_iff] using h)
      · exact Or.inr (by simpa [List.elem_iff] using h)
  subst hrec
  refine ⟨?_, ?_, ?_, ?_, ?_, ?_⟩
  · show (r.path ++ [next]).head? = some s
    rw [List.head?_append, hr.head]
    rfl
  · show (r.path ++ [next]).getLast? = some next
    exact List.getLast?_concat r.path
  · show (r.path ++ [next]).Nodup
    have : (r.path ++ [next]).Nodup ↔ r.path.Nodup ∧ next ∉ r.path := by
      simp [List.nodup_append]
    exact this.mpr ⟨hr.nodup, hnotmem⟩
  · show (r.path ++ [next]).length = r.depth + 1 + 1
    rw [List.length_append, hr.len]
    rfl
  · show r.depth + 1 ≤ 5
    omega
  · show List.Chain' (cteEdgeOk g allowed) (r.path ++ [next])
    rw [List.chain'_append]
    refine ⟨hr.chain, List.chain'_singleton next, ?_⟩
    intro x hx y hy
    have hx' : x = r.endNode := by
      have := hr.last
      rw [Option.mem_def] at hx
      rw [this] at hx
      exact (Option.some.inj hx).symm
    have hy' : next = y := by
      rw [Option.mem_def] at hy
      simpa using hy
    rw [hx', ← hy']
    exact hedge

theorem searchAux_inv {g : Graph} {allowed : List String} {s : String} :
    ∀ (n : Nat) (rows : List Row), (∀ r ∈ rows, RowInv g allowed s r) →
      ∀ r ∈ searchAux g allowed n rows, RowInv g allowed s r := by
  intro n
  induction n with
  | zero =>
      intro rows _ r hr
      simp [searchAux] at hr
  | succ m ih =>
      intro rows hrows r hr
      rw [searchAux] at hr
      rcases List.mem_append.mp hr with h | h
      · exact hrows r h
      · refine ih _ ?_ r h
        intro r' hr'
        obtain ⟨r0, hr0, hstep⟩ := List.mem_flatMap.mp hr'
        exact rowStep_inv (hrows r0 hr0) hstep

theorem searchGraph_inv {g : Graph} {allowed : List String} {s : String}
    (r : Row) (hr : r ∈ searchGraph g allowed s) : RowInv g allowed s r := by
  refine searchAux_inv 7 _ ?_ r hr
  intro r0 hr0
  simp only [List.mem_singleton] at hr0
  subst hr0
  refine ⟨rfl, rfl, List.nodup_singleton s, rfl, ?_, List.chain'_singleton s⟩
  show (0 : Nat) ≤ 5
  decide

theorem findShortestPaths_mem {g : Graph} {s e : String} {k : Nat}
    {allowed : List String} {p : List String}
    (hp : p ∈ findShortestPaths g s e k allowed) :
    ∃ r ∈ searchGraph g allowed s, r.path = p ∧ r.endNode = e ∧ r.depth ≠ 0 := by
  rw [findShortestPaths] at hp
  have hp1 := List.mem_of_mem_take hp
  obtain ⟨r, hrf, hrp⟩ := List.mem_map.mp hp1
  have hrmem := List.mem_of_mem_filter hrf
  have hcond := List.of_mem_filter hrf
  simp only [Bool.and_eq_true, beq_iff_eq, Bool.not_eq_true'] at hcond
  refine ⟨r, hrmem, hrp, hcond.1, ?_⟩
  have := hcond.2
  simpa using this

/-- C2 amended: every path returned by `findShortestPaths` with a non-empty
type filter starts at the start id, ends at the end id, has no repeated
nodes, has between 1 and 5 edges, and uses only edges whose connection type
is allowed; the returned paths are NOT all of the minimum length (see the
counterexample). -/
theorem findShortestPaths_sound (g : Graph) (s e : String) (k : Nat)
    (allowed : List String) (hall : allowed ≠ []) :
    ∀ p ∈ findShortestPaths g s e k allowed,
      p.head? = some s ∧ p.getLast? = some e ∧ p.Nodup ∧
      2 ≤ p.length ∧ p.length ≤ 6 ∧ List.Chain' (sessionEdgeOk g allowed) p := by
  intro p hp
  obtain ⟨r, hr, hpath, hend, hdep⟩ := findShortestPaths_mem hp
  have hinv := searchGraph_inv r hr
  subst hpath
  refine ⟨hinv.head, by rw [hinv.last, hend], hinv.nodup, ?_, ?_, ?_⟩
  · have := hinv.len
    omega
  · have h1 := hinv.len
    have h2 := hinv.depth_le
    omega
  · refine hinv.chain.imp ?_
    intro a b hab
    obtain ⟨c, hcg, horient, htype⟩ := hab
    rcases htype with h | h
    · exact absurd h hall
    · exact ⟨c, hcg, horient, h⟩

theorem head_ne_last_of_nodup {l : List String} (hnd : l.Nodup)
    (hlen : 2 ≤ l.length) {a : String} (hh : l.head? = some a)
    (hl : l.getLast? = some a) : False := by
  match l, hnd, hlen, hh, hl with
  | x :: y :: rest, hnd, _, hh, hl =>
    have hx : x = a := by simpa using hh
    have hl2 : (y :: rest).getLast? = some a := by
      rw [← List.getLast?_cons_cons]
      exact hl
    have hmem : a ∈ y :: rest := mem_of_getLast?_eq hl2
    have hnotin : x ∉ y :: rest := (List.nodup_cons.mp hnd).1
    rw [hx] at hnotin
    exact hnotin hmem

theorem searchGraph_no_self_hit (g : Graph) (allowed : List String) (x : String) :
    (searchGraph g allowed x).filter
      (fun r => r.endNode == x && !(r.depth == 0)) = [] := by
  rw [List.filter_eq_nil_iff]
  intro r hr hcond
  have hinv := searchGraph_inv r hr
  simp only [Bool.and_eq_true, beq_iff_eq, Bool.not_eq_true'] at hcond
  have hdep : r.depth ≠ 0 := by simpa using hcond.2
  have hlen2 : 2 ≤ r.path.length := by
    have := hinv.len
    omega
  exact head_ne_last_of_nodup hinv.nodup hlen2 hinv.head (by rw [hinv.last, hcond.1])

theorem findShortestPaths_self_empty (g : Graph) (x : String) (k : Nat)
    (allowed : List String) : findShortestPaths g x x k allowed = [] := by
  rw [findShortestPaths, searchGraph_no_self_hit]
  simp

/-- C5 amended: when the start and end ids coincide, `findShortestPath`
returns the empty sequence (not `[X]`) and `findShortestPaths` returns no
sequences: the CTE keeps only rows with `depth > 0` and the cycle check
prevents any row from returning to the anchor node. -/
theorem pathfinder_self_query (g : Graph) (x : String) (k : Nat)
    (allowed : List String) :
    findShortestPath g x x allowed = [] ∧ findShortestPaths g x x k allowed = [] :=
  ⟨by rw [findShortestPath, findShortestPaths_self_empty]; rfl,
   findShortestPaths_self_empty g x k allowed⟩

/-- One-edge graph used to refute the original C5 statement. -/
def exGraph1 : Graph := [{ player1_id := "a", player2_id := "b", connection_type := "t" }]

/-- C5 counterexample: on a graph containing `"a"`, `findShortestPath` with
equal endpoints does not return the single-node sequence `["a"]`, and
`findShortestPaths` does not return exactly one such sequence. -/
theorem pathfinder_self_query_counterexample :
    findShortestPath exGraph1 "a" "a" ["t"] ≠ ["a"] ∧
    findShortestPaths exGraph1 "a" "a" 3 ["t"] ≠ [["a"]] := by
  decide

/-- Triangle graph: direct edge from `"a"` to `"b"` and a two-edge detour
through `"c"`, all of type `"t"`. -/
def exGraph2 : Graph :=
  [{ player1_id := "a", player2_id := "b", connection_type := "t" },
   { player1_id := "a", player2_id := "c", connection_type := "t" },
   { player1_id := "c", player2_id := "b", connection_type := "t" }]

/-- C2 counterexample: a call to `findShortestPaths` returns both the
two-node shortest path and a three-node path, so the returned paths do not
all have the minimum length. -/
theorem findShortestPaths_mixed_lengths :
    ["a", "b"] ∈ findShortestPaths exGraph2 "a" "b" 3 ["t"] ∧
    ["a", "c", "b"] ∈ findShortestPaths exGraph2 "a" "b" 3 ["t"] := by
  decide

/-- C2 witness: the soundness theorem instantiated on the triangle graph. -/
theorem findShortestPaths_sound_witness :
    (["t"] : List String) ≠ [] ∧
    (∀ p ∈ findShortestPaths exGraph2 "a" "b" 3 ["t"],
      p.head? = some "a" ∧ p.getLast? = some "b" ∧ p.Nodup ∧
      2 ≤ p.length ∧ p.length ≤ 6 ∧
      List.Chain' (sessionEdgeOk exGraph2 ["t"]) p) :=
  ⟨by decide, findShortestPaths_sound exGraph2 "a" "b" 3 ["t"] (by decide)⟩

/-- Value of the `players` map of a session: `{ userId }`. -/
structure PlayerInfo where
  userId : String
deriving DecidableEq, Repr

/-- The `GameSession` record of `game-manager.ts`.  JS `Map`s become
insertion-ordered association lists; the `timerId` handle becomes the
scheduled delay (in milliseconds) of the wall-clock timeout. -/
structure GameSession where
  id : String
  mode : GameMode
  difficulty : Difficulty
  players : List (String × PlayerInfo)
  startPlayer : Player
  endPlayer : Player
  status : Status
  ready : List (String × Bool)
  winnerId : Option String
  winningPath : Option (List String)
  startTime : Nat
  timerDelayMs : Option Nat
  strikes : Option Int
  maxStrikes : Option Int
deriving DecidableEq, Repr

/-- Row of the `user_stats` table (the columns the engine writes). -/
structure UserStats where
  single_player_high_score : Int
  multiplayer_wins : Int
  multiplayer_losses : Int
deriving DecidableEq, Repr

/-- Entry of the `waitingPlayers` queue. -/
structure QueueEntry where
  socketId : String
  userId : String
  difficulty : Difficulty
deriving DecidableEq, Repr

/-- Outbound socket frames emitted by the game manager. -/
inductive Frame where
  | gameStart (sessionId : String) (startPlayer endPlayer : Player)
      (mode : GameMode) (difficulty : Difficulty) (opponentId : Option String)
  | opponentReady
  | allPlayersReady
  | invalidPath (pathLength : Nat) (strikes : Option Int)
  | opponentAttemptedPath (success : Bool) (pathLength : Nat)
  | gameEnd (winnerId : Option String) (reason : Option String)
      (winningPath : Option (List String))
      (solutionPaths : Option (List (List String)))
      (score : Option Int) (time : Option ℚ)
deriving DecidableEq, Repr

/-- The mutable state of a `GameManager` instance. -/
structure GMState where
  activeSessions : List (String × GameSession)
  waitingPlayers : List QueueEntry
  statsDB : List (String × UserStats)
deriving DecidableEq, Repr

/-- `this.activeSessions.get(sessionId)`. -/
def lookupSession (st : GMState) (sessionId : String) : Option GameSession :=
  (st.activeSessions.find? (fun e => e.1 == sessionId)).map Prod.snd

/-- In-place mutation of the session object stored under key `k`. -/
def updateAssoc (l : List (String × GameSession)) (k : String) (v : GameSession) :
    List (String × GameSession) :=
  l.map (fun e => if e.1 == k then (e.1, v) else e)

/-- `this.activeSessions.delete(k)`. -/
def deleteAssoc (l : List (String × GameSession)) (k : String) :
    List (String × GameSession) :=
  l.filter (fun e => !(e.1 == k))

/-- JS `Map.set`: update the entry when the key is present, append otherwise. -/
def mapSet (m : List (String × Bool)) (k : String) (v : Bool) :
    List (String × Bool) :=
  if m.any (fun e => e.1 == k) then
    m.map (fun e => if e.1 == k then (e.1, v) else e)
  else m ++ [(k, v)]

/-- `statsRepo.findOneBy({ user_id: userId })`. -/
def findStats (db : List (String × UserStats)) (userId : String) :
    Option UserStats :=
  (db.find? (fun e => e.1 == userId)).map Prod.snd

/-- `statsRepo.save(stats)`: write back the row with the given user id. -/
def saveStats (db : List (String × UserStats)) (userId : String) (s : UserStats) :
    List (String × UserStats) :=
  db.map (fun e => if e.1 == userId then (e.1, s) else e)

/-- The session record built by `GameManager.createSession`.  The multiplayer
timeout is scheduled `(60 + 5) * 1000` milliseconds ahead. -/
def createSession (sessionId : String) (players : List (String × PlayerInfo))
    (mode : GameMode) (difficulty : Difficulty) (startPlayer endPlayer : Player)
    (now : Nat) : GameSession :=
  { id := sessionId
    mode := mode
    difficulty := difficulty
    players := players
    startPlayer := startPlayer
    endPlayer := endPlayer
    status := if mode = GameMode.single then Status.active else Status.waiting
    ready := players.map (fun e => (e.1, false))
    winnerId := none
    winningPath := none
    startTime := now
    timerDelayMs := if mode = GameMode.multiplayer then some ((60 + 5) * 1000) else none
    strikes := some (getStrikesForDifficulty difficulty)
    maxStrikes := some (getStrikesForDifficulty difficulty) }

/-- The `gameStart` frames emitted at the end of `createSession`. -/
def createSessionFrames (sessionId : String) (players : List (String × PlayerInfo))
    (mode : GameMode) (difficulty : Difficulty) (startPlayer endPlayer : Player) :
    List (String × Frame) :=
  players.map (fun e =>
    (e.1, Frame.gameStart sessionId startPlayer endPlayer mode difficulty
      (if mode = GameMode.multiplayer then
        (players.find? (fun q => !(q.1 == e.1))).map (fun q => q.2.userId)
       else none)))

/-- `GameManager.createSession` as a state transition: register the session
and notify every participant. -/
def createSessionOp (st : GMState) (sessionId : String)
    (players : List (String × PlayerInfo)) (mode : GameMode)
    (difficulty : Difficulty) (startPlayer endPlayer : Player) (now : Nat) :
    GMState × List (String × Frame) :=
  ({ st with activeSessions := st.activeSessions ++
      [(sessionId, createSession sessionId players mode difficulty startPlayer endPlayer now)] },
   createSessionFrames sessionId players mode difficulty startPlayer endPlayer)

/-- `GameManager.startMultiplayerGame`.  Endpoint selection
(`_selectPlayersForGame`, which samples random pairs from the difficulty
pool) is abstracted as the oracle `sel`; `sel d = none` is the
could-not-find-endpoints outcome, on which the two spliced entries are
pushed back to the END of the queue. -/
def startMultiplayerGame (sel : Difficulty → Option (Player × Player))
    (newSessionId : String) (now : Nat) (st : GMState) :
    GMState × List (String × Frame) :=
  match st.waitingPlayers with
  | p1 :: p2 :: rest =>
      (match sel p1.difficulty with
       | none => ({ st with waitingPlayers := rest ++ [p1, p2] }, [])
       | some (sp, ep) =>
          createSessionOp { st with waitingPlayers := rest } newSessionId
            [(p1.socketId, { userId := p1.userId }),
             (p2.socketId, { userId := p2.userId })]
            GameMode.multiplayer p1.difficulty sp ep now)
  | _ => (st, [])

/-- Deduplication in `findAndEmitSolutions` via `new Set` over
JSON-serialized paths: keep the first occurrence of each path. -/
def dedupKeepFirst (l : List (List String)) : List (List String) :=
  l.foldl (fun acc p => if p ∈ acc then acc else acc ++ [p]) []

/-- `GameManager.findAndEmitSolutions`. -/
def findAndEmitSolutions (g : Graph) (tbl : List Player) (session : GameSession)
    (limit : Nat) : List (List String) :=
  dedupKeepFirst (convertIdsToNames tbl
    (findShortestPaths g session.startPlayer.id session.endPlayer.id limit
      (getConnectionTypesForDifficulty session.difficulty)))

/-- `GameManager.handleSinglePlayerWin`. -/
def handleSinglePlayerWin (tbl : List Player) (st : GMState)
    (session : GameSession) (userId : String) (path : List String) (now : Nat) :
    GMState × List (String × Frame) :=
  let timeElapsed : ℚ := ((now - session.startTime : Nat) : ℚ) / 1000
  let score : Int := max 0 (10000 - ⌊timeElapsed * 10⌋ - ((path.length : Int) - 1) * 100)
  let db1 :=
    match findStats st.statsDB userId with
    | some stats =>
        if score > stats.single_player_high_score then
          saveStats st.statsDB userId { stats with single_player_high_score := score }
        else st.statsDB
    | none => st.statsDB
  let winningPathWithNames := (convertIdsToNames tbl [path]).headD []
  let frames :=
    match session.players.head? with
    | some e => [(e.1, Frame.gameEnd (some userId) (some "path_found")
        (some winningPathWithNames) none (some score) (some timeElapsed))]
    | none => []
  ({ st with statsDB := db1
             activeSessions := deleteAssoc st.activeSessions session.id }, frames)

/-- The stats loop of `handleMultiplayerWin`: for every participant whose
stats row exists, increment wins for the winner and losses otherwise. -/
def applyWinLoss (winnerUserId : String) (db : List (String × UserStats))
    (players : List (String × PlayerInfo)) : List (String × UserStats) :=
  players.foldl (fun acc e =>
    match findStats acc e.2.userId with
    | some stats =>
        if e.2.userId == winnerUserId then
          saveStats acc e.2.userId
            { stats with multiplayer_wins := stats.multiplayer_wins + 1 }
        else
          saveStats acc e.2.userId
            { stats with multiplayer_losses := stats.multiplayer_losses + 1 }
    | none => acc) db

/-- `GameManager.handleMultiplayerWin` (the winning session is deleted, so
its in-place `winnerId`/`status` mutations are not observable). -/
def handleMultiplayerWin (g : Graph) (tbl : List Player) (st : GMState)
    (session : GameSession) (winnerUserId : String) (path : List String) :
    GMState × List (String × Frame) :=
  let db1 := applyWinLoss winnerUserId st.statsDB session.players
  let winningPathWithNames := (convertIdsToNames tbl [path]).headD []
  let solutionPaths := findAndEmitSolutions g tbl session 3
  let frames := session.players.map (fun e =>
    (e.1, Frame.gameEnd (some winnerUserId) (some "path_found")
      (some winningPathWithNames)
      (if !(e.2.userId == winnerUserId) then some solutionPaths else none)
      none none))
  ({ st with statsDB := db1
             activeSessions := deleteAssoc st.activeSessions session.id }, frames)

/-- `GameManager._endGame`. -/
def endGame (g : Graph) (tbl : List Player) (st : GMState)
    (session : GameSession) (reason : String) (winnerId : Option String) :
    GMState × List (String × Frame) :=
  if session.status = Status.finished then (st, [])
  else
    let db1 :=
      if reason = "opponent_disconnected" then
        match winnerId with
        | some w =>
            (match findStats st.statsDB w with
             | some stats => saveStats st.statsDB w
                 { stats with multiplayer_wins := stats.multiplayer_wins + 1 }
             | none => st.statsDB)
        | none => st.statsDB
      else st.statsDB
    let solutionPaths := findAndEmitSolutions g tbl session 3
    let frames := session.players.map (fun e =>
      (e.1, Frame.gameEnd winnerId
        (some (if reason = "gave_up" ∧ winnerId = some e.2.userId then
                "opponent_gave_up" else reason))
        none (some solutionPaths) none none))
    ({ st with statsDB := db1
               activeSessions := deleteAssoc st.activeSessions session.id }, frames)

/-- `GameManager.handleInvalidPath`. -/
def handleInvalidPath (g : Graph) (tbl : List Player) (st : GMState)
    (session : GameSession) (socketId : String) (pathLength : Nat) :
    GMState × List (String × Frame) :=
  match session.strikes, session.maxStrikes with
  | some strikes, some _ =>
      let strikes1 := strikes - 1
      let session1 := { session with strikes := some strikes1 }
      let st1 := { st with
        activeSessions := updateAssoc st.activeSessions session.id session1 }
      let submitterFrame := [(socketId, Frame.invalidPath pathLength (some strikes1))]
      let opponent := session.players.find? (fun e => !(e.1 == socketId))
      let oppFrames :=
        match opponent with
        | some e => [(e.1, Frame.opponentAttemptedPath false pathLength)]
        | none => []
      if strikes1 ≤ 0 then
        let res := endGame g tbl st1 session1 "out_of_strikes"
          (opponent.map (fun e => e.2.userId))
        (res.1, submitterFrame ++ oppFrames ++ res.2)
      else (st1, submitterFrame ++ oppFrames)
  | _, _ =>
      let submitterFrame := [(socketId, Frame.invalidPath pathLength none)]
      let oppFrames :=
        match session.players.find? (fun e => !(e.1 == socketId)) with
        | some e => [(e.1, Frame.opponentAttemptedPath false pathLength)]
        | none => []
      (st, submitterFrame ++ oppFrames)

/-- `GameManager.submitPath`. -/
def submitPath (g : Graph) (tbl : List Player) (st : GMState)
    (sessionId socketId : String) (path : List String) (now : Nat) :
    GMState × List (String × Frame) :=
  match lookupSession st sessionId with
  | none => (st, [])
  | some session =>
      if session.status ≠ Status.active then (st, [])
      else
        match session.players.find? (fun e => e.1 == socketId) with
        | none => (st, [])
        | some pe =>
            if validatePath g path session.startPlayer.id session.endPlayer.id
                (getConnectionTypesForDifficulty session.difficulty) then
              if session.mode = GameMode.single then
                handleSinglePlayerWin tbl st session pe.2.userId path now
              else
                handleMultiplayerWin g tbl st session pe.2.userId path
            else handleInvalidPath g tbl st session socketId path.length

/-- `GameManager.playerReady`. -/
def playerReady (st : GMState) (socketId sessionId : String) :
    GMState × List (String × Frame) :=
  match lookupSession st sessionId with
  | none => (st, [])
  | some session =>
      if session.players.any (fun e => e.1 == socketId) = false then (st, [])
      else if session.mode ≠ GameMode.multiplayer then (st, [])
      else
        let session1 := { session with ready := mapSet session.ready socketId true }
        let oppFrames :=
          match session.players.find? (fun e => !(e.1 == socketId)) with
          | some e => [(e.1, Frame.opponentReady)]
          | none => []
        let allReady := session1.ready.all (fun e => e.2)
        let session2 :=
          if allReady then { session1 with status := Status.active } else session1
        let readyFrames :=
          if allReady then session.players.map (fun e => (e.1, Frame.allPlayersReady))
          else []
        ({ st with activeSessions := updateAssoc st.activeSessions sessionId session2 },
         oppFrames ++ readyFrames)

/-- `GameManager.leaveQueue`: remove the first queue entry of the socket. -/
def leaveQueue (st : GMState) (socketId : String) : GMState :=
  { st with waitingPlayers := st.waitingPlayers.eraseP (fun p => p.socketId == socketId) }

/-- `GameManager.handleGiveUp`. -/
def handleGiveUp (g : Graph) (tbl : List Player) (st : GMState)
    (socketId sessionId : String) : GMState × List (String × Frame) :=
  match lookupSession st sessionId with
  | none => (st, [])
  | some session =>
      if session.players.any (fun e => e.1 == socketId) = false ∨
          session.status ≠ Status.active then (st, [])
      else if session.mode = GameMode.single then
        endGame g tbl st session "gave_up" none
      else
        endGame g tbl st session "gave_up"
          ((session.players.find? (fun e => !(e.1 == socketId))).map (fun e => e.2.userId))

/-- `GameManager.handleDisconnect`: leave the queue, then end (or drop) the
first session the socket participates in.  Note there is NO check of the
session's status. -/
def handleDisconnect (g : Graph) (tbl : List Player) (st : GMState)
    (socketId : String) : GMState × List (String × Frame) :=
  let st1 := leaveQueue st socketId
  match st1.activeSessions.find? (fun e => e.2.players.any (fun q => q.1 == socketId)) with
  | some se =>
      if se.2.mode = GameMode.multiplayer then
        match se.2.players.find? (fun q => !(q.1 == socketId)) with
        | some winner => endGame g tbl st1 se.2 "opponent_disconnected" (some winner.2.userId)
        | none => (st1, [])
      else
        ({ st1 with activeSessions := deleteAssoc st1.activeSessions se.2.id }, [])
  | none => (st1, [])

/-- Winner id computed by `forceEndGame`: the first participant key that is
not the caller, or the string `"none"`. -/
def forcedWinner (session : GameSession) (socketId : String) : String :=
  match session.players.find? (fun e => !(e.1 == socketId)) with
  | some e => e.1
  | none => "none"

/-- `GameManager.forceEndGame`: no participant-membership check and no
status check; the only guard is that the session exists. -/
def forceEndGame (st : GMState) (socketId sessionId : String) :
    GMState × List (String × Frame) :=
  match lookupSession st sessionId with
  | none => (st, [])
  | some session =>
      ({ st with activeSessions := deleteAssoc st.activeSessions sessionId },
       session.players.map (fun e =>
         (e.1, Frame.gameEnd (some (forcedWinner session socketId)) none
           (some ["simulation"]) none none none)))

/-- Socket events registered on every authenticated connection in `app.ts`. -/
def registeredSocketEvents : List String :=
  ["joinQueue", "startSinglePlayerGame", "leaveQueue", "playerReady",
   "submitPath", "giveUp", "forceEndGame", "disconnect"]

theorem find?_map_if {β : Type} (m : List (String × β)) (k : String) (v : β) :
    (m.map (fun e => if e.1 == k then (e.1, v) else e)).find? (fun e => e.1 == k) =
      (m.find? (fun e => e.1 == k)).map (fun e => (e.1, v)) := by
  induction m with
  | nil => rfl
  | cons e rest ih =>
      obtain ⟨e1, e2⟩ := e
      by_cases he : e1 = k
      · subst he
        simp [List.find?_cons]
      · have ih' := ih
        simp only [beq_iff_eq] at ih'
        simp [List.find?_cons, he, ih', -List.find?_map]

theorem map_if_map_if {β : Type} (m : List (String × β)) (k : String) (v w : β) :
    ((m.map (fun e => if e.1 == k then (e.1, v) else e)).map
      (fun e => if e.1 == k then (e.1, w) else e)) =
      m.map (fun e => if e.1 == k then (e.1, w) else e) := by
  induction m with
  | nil => rfl
  | cons e rest ih =>
      obtain ⟨e1, e2⟩ := e
      by_cases he : e1 = k
      · simp [he, ih]
        intro a b hab
        by_cases ha : a = k <;> simp [ha]
      · simp [he, ih]
        intro a b hab
        by_cases ha : a = k <;> simp [ha]

theorem any_key_map_if {β : Type} (m : List (String × β)) (k k' : String) (v : β) :
    (m.map (fun e => if e.1 == k then (e.1, v) else e)).any (fun e => e.1 == k') =
      m.any (fun e => e.1 == k') := by
  induction m with
  | nil => rfl
  | cons e rest ih =>
      obtain ⟨e1, e2⟩ := e
      have ih' := ih
      simp only [beq_iff_eq] at ih'
      by_cases he : e1 = k
      · simp [List.any_cons, he, ih', -List.any_map]
      · simp [List.any_cons, he, ih', -List.any_map]

theorem map_if_eq_self {β : Type} (m : List (String × β)) (k : String) (v : β)
    (h : ∀ e ∈ m, (e.1 == k) = false) :
    m.map (fun e => if e.1 == k then (e.1, v) else e) = m := by
  induction m with
  | nil => rfl
  | cons e rest ih =>
      rw [List.map_cons, if_neg (by simp [h e (List.mem_cons_self e rest)]),
        ih (fun e' he' => h e' (List.mem_cons_of_mem _ he'))]

theorem mapSet_idem (m : List (String × Bool)) (k : String) (v : Bool) :
    mapSet (mapSet m k v) k v = mapSet m k v := by
  by_cases hany : (m.any fun e => e.1 == k) = true
  · have h1 : mapSet m k v = m.map (fun e => if e.1 == k then (e.1, v) else e) := by
      rw [mapSet, if_pos hany]
    rw [h1]
    have h2 : ((m.map (fun e => if e.1 == k then (e.1, v) else e)).any
        fun e => e.1 == k) = true := by
      rw [any_key_map_if]
      exact hany
    rw [mapSet, if_pos h2, map_if_map_if]
  · have h1 : mapSet m k v = m ++ [(k, v)] := by rw [mapSet, if_neg hany]
    rw [h1]
    have h2 : ((m ++ [(k, v)]).any fun e => e.1 == k) = true := by simp
    rw [mapSet, if_pos h2, List.map_append]
    have hall : ∀ e ∈ m, (e.1 == k) = false := by
      intro e he
      by_contra hc
      exact hany (List.any_eq_true.mpr ⟨e, he, by simpa using hc⟩)
    rw [map_if_eq_self m k v hall]
    simp

/-- C4 amended: for every multiplayer session, `createSession` schedules the
wall-clock timeout `(60 + 5) * 1000` milliseconds (65 seconds) after session
creation, not countdown + game duration = 63 seconds. -/
theorem multiplayer_timeout_delay (sessionId : String)
    (players : List (String × PlayerInfo)) (d : Difficulty)
    (sp ep : Player) (now : Nat) :
    (createSession sessionId players GameMode.multiplayer d sp ep now).timerDelayMs =
      some 65000 := rfl

/-- Fixture: two endpoint players. -/
def exPlayerX : Player := { id := "x", name := "Xavier" }

/-- Fixture: the second endpoint player. -/
def exPlayerY : Player := { id := "y", name := "Yuri" }

/-- C4 counterexample: the scheduled delay of a concrete multiplayer session
is not 63 seconds (it is 65 seconds). -/
theorem multiplayer_timeout_not_63s :
    (createSession "s1" [("sockA", { userId := "u1" })] GameMode.multiplayer
      Difficulty.easy exPlayerX exPlayerY 0).timerDelayMs ≠ some 63000 := by
  decide

/-- C3 amended: when endpoint selection fails, `startMultiplayerGame` pushes
the two spliced entries to the BACK of the queue (so with a third entry
present the prior order is not restored), registers no session, emits
nothing, and leaves the queue with at least two entries, so the
`joinQueue` while-loop immediately attempts to match again instead of
aborting until a new event arrives. -/
theorem startMultiplayerGame_noneAvailable
    (sel : Difficulty → Option (Player × Player)) (newSessionId : String)
    (now : Nat) (st : GMState) (p1 p2 : QueueEntry) (rest : List QueueEntry)
    (hq : st.waitingPlayers = p1 :: p2 :: rest)
    (hsel : sel p1.difficulty = none) :
    (startMultiplayerGame sel newSessionId now st).1.waitingPlayers = rest ++ [p1, p2] ∧
    (startMultiplayerGame sel newSessionId now st).1.activeSessions = st.activeSessions ∧
    (startMultiplayerGame sel newSessionId now st).2 = [] ∧
    2 ≤ (startMultiplayerGame sel newSessionId now st).1.waitingPlayers.length := by
  have h : startMultiplayerGame sel newSessionId now st =
      ({ st with waitingPlayers := rest ++ [p1, p2] }, []) := by
    simp only [startMultiplayerGame, hq, hsel]
  rw [h]
  refine ⟨rfl, rfl, rfl, ?_⟩
  simp

/-- Fixture: a three-entry matchmaking queue. -/
def exQueue3 : GMState :=
  { activeSessions := []
    waitingPlayers :=
      [{ socketId := "sockA", userId := "u1", difficulty := Difficulty.easy },
       { socketId := "sockB", userId := "u2", difficulty := Difficulty.easy },
       { socketId := "sockC", userId := "u3", difficulty := Difficulty.easy }]
    statsDB := [] }

/-- C3 counterexample: with queue `[A, B, C]` and endpoint selection
returning none, the resulting queue is `[C, A, B]`, not the prior queue. -/
theorem startMultiplayerGame_not_restored :
    (startMultiplayerGame (fun _ => none) "sid" 0 exQueue3).1.waitingPlayers ≠
      exQueue3.waitingPlayers := by
  decide

/-- C3 witness: the amended theorem instantiated on the three-entry queue. -/
theorem startMultiplayerGame_noneAvailable_witness :
    (startMultiplayerGame (fun _ => none) "sid" 0 exQueue3).1.waitingPlayers =
      [{ socketId := "sockC", userId := "u3", difficulty := Difficulty.easy }] ++
      [{ socketId := "sockA", userId := "u1", difficulty := Difficulty.easy },
       { socketId := "sockB", userId := "u2", difficulty := Difficulty.easy }] ∧
    (startMultiplayerGame (fun _ => none) "sid" 0 exQueue3).1.activeSessions =
      exQueue3.activeSessions ∧
    (startMultiplayerGame (fun _ => none) "sid" 0 exQueue3).2 = [] ∧
    2 ≤ (startMultiplayerGame (fun _ => none) "sid" 0 exQueue3).1.waitingPlayers.length :=
  startMultiplayerGame_noneAvailable (fun _ => none) "sid" 0 exQueue3
    { socketId := "sockA", userId := "u1", difficulty := Difficulty.easy }
    { socketId := "sockB", userId := "u2", difficulty := Difficulty.easy }
    [{ socketId := "sockC", userId := "u3", difficulty := Difficulty.easy }]
    rfl rfl

/-- C9: for every registered session and every caller socket — participant
or not, whatever the session status — `forceEndGame` removes the session
from the registry and emits to every participant a `gameEnd` frame whose
`winnerId` is a participant other than the caller (or `"none"` when every
participant key is the caller's) and whose `winningPath` is
`["simulation"]`; the `forceEndGame` event is registered on the public
socket interface. -/
theorem forceEndGame_spec (st : GMState) (socketId sessionId : String)
    (session : GameSession)
    (h : lookupSession st sessionId = some session) :
    (forceEndGame st socketId sessionId).1.activeSessions =
      deleteAssoc st.activeSessions sessionId ∧
    (forceEndGame st socketId sessionId).2 =
      session.players.map (fun e =>
        (e.1, Frame.gameEnd (some (forcedWinner session socketId)) none
          (some ["simulation"]) none none none)) ∧
    ((∃ e ∈ session.players, forcedWinner session socketId = e.1 ∧ e.1 ≠ socketId) ∨
      (forcedWinner session socketId = "none" ∧ ∀ e ∈ session.players, e.1 = socketId)) ∧
    "forceEndGame" ∈ registeredSocketEvents := by
  have hfe : forceEndGame st socketId sessionId =
      ({ st with activeSessions := deleteAssoc st.activeSessions sessionId },
       session.players.map (fun e =>
        (e.1, Frame.gameEnd (some (forcedWinner session socketId)) none
          (some ["simulation"]) none none none))) := by
    rw [forceEndGame, h]
  rw [hfe]
  refine ⟨rfl, rfl, ?_, by decide⟩
  cases hfind : session.players.find? (fun e => !(e.1 == socketId)) with
  | none =>
      right
      constructor
      · rw [forcedWinner, hfind]
      · intro e he
        have := List.find?_eq_none.mp hfind e he
        simpa using this
  | some w =>
      left
      refine ⟨w, List.mem_of_find?_eq_some hfind, ?_, ?_⟩
      · rw [forcedWinner, hfind]
      · have := List.find?_some hfind
        simpa using this

/-- Fixture: a two-player multiplayer session still in the waiting state. -/
def exSessionMP : GameSession :=
  createSession "s1" [("sockA", { userId := "u1" }), ("sockB", { userId := "u2" })]
    GameMode.multiplayer Difficulty.hard exPlayerX exPlayerY 0

/-- Fixture: zeroed stats row. -/
def exStats0 : UserStats :=
  { single_player_high_score := 0, multiplayer_wins := 0, multiplayer_losses := 0 }

/-- Fixture: registry holding the waiting multiplayer session and stats rows
for both users. -/
def exStateMP : GMState :=
  { activeSessions := [("s1", exSessionMP)]
    waitingPlayers := []
    statsDB := [("u1", exStats0), ("u2", exStats0)] }

/-- C9 witness: `forceEndGame` invoked by a socket that is NOT a participant
of the (still waiting) session. -/
theorem forceEndGame_spec_witness :
    (forceEndGame exStateMP "intruder" "s1").1.activeSessions =
      deleteAssoc exStateMP.activeSessions "s1" ∧
    (forceEndGame exStateMP "intruder" "s1").2 =
      exSessionMP.players.map (fun e =>
        (e.1, Frame.gameEnd (some (forcedWinner exSessionMP "intruder")) none
          (some ["simulation"]) none none none)) ∧
    ((∃ e ∈ exSessionMP.players, forcedWinner exSessionMP "intruder" = e.1 ∧
        e.1 ≠ "intruder") ∨
      (forcedWinner exSessionMP "intruder" = "none" ∧
        ∀ e ∈ exSessionMP.players, e.1 = "intruder")) ∧
    "forceEndGame" ∈ registeredSocketEvents :=
  forceEndGame_spec exStateMP "intruder" "s1" exSessionMP (by decide)

theorem find?_key_map_if {β : Type} (m : List (String × β)) (k k' : String)
    (v : β) (h : k' ≠ k) :
    (m.map (fun e => if e.1 == k then (e.1, v) else e)).find? (fun e => e.1 == k') =
      m.find? (fun e => e.1 == k') := by
  induction m with
  | nil => rfl
  | cons e rest ih =>
      obtain ⟨e1, e2⟩ := e
      have ih' := ih
      simp only [beq_iff_eq] at ih'
      have hb : ((k : String) == k') = false := beq_eq_false_iff_ne.mpr (Ne.symm h)
      by_cases he : e1 = k
      · have hne : ¬e1 = k' := by
          rw [he]
          exact fun hc => h hc.symm
        simp [List.find?_cons, he, hne, ih', hb, -List.find?_map]
      · by_cases he2 : e1 = k'
        · simp [List.find?_cons, he, he2, h, -List.find?_map]
        · simp [List.find?_cons, he, he2, ih', -List.find?_map]

theorem findStats_saveStats_self (db : List (String × UserStats)) (u : String)
    (s : UserStats) :
    findStats (saveStats db u s) u = (findStats db u).map (fun _ => s) := by
  rw [findStats, saveStats, find?_map_if, findStats]
  cases db.find? (fun e => e.1 == u) <;> rfl

theorem findStats_saveStats_ne (db : List (String × UserStats)) (u u' : String)
    (s : UserStats) (h : u' ≠ u) :
    findStats (saveStats db u s) u' = findStats db u' := by
  rw [findStats, saveStats, find?_key_map_if db u u' s h, findStats]

theorem endGame_statsDB (g : Graph) (tbl : List Player) (st : GMState)
    (session : GameSession) (reason : String) (winnerId : Option String)
    (hstatus : session.status ≠ Status.finished) :
    (endGame g tbl st session reason winnerId).1.statsDB =
      (if reason = "opponent_disconnected" then
        match winnerId with
        | some w =>
            (match findStats st.statsDB w with
             | some stats => saveStats st.statsDB w
                 { stats with multiplayer_wins := stats.multiplayer_wins + 1 }
             | none => st.statsDB)
        | none => st.statsDB
      else st.statsDB) := by
  rw [endGame.eq_def, if_neg hstatus]

theorem endGame_run (g : Graph) (tbl : List Player) (st : GMState)
    (session : GameSession) (reason : String) (winnerId : Option String)
    (hstatus : session.status ≠ Status.finished) :
    endGame g tbl st session reason winnerId =
      ({ st with
          statsDB :=
            (if reason = "opponent_disconnected" then
              match winnerId with
              | some w =>
                  (match findStats st.statsDB w with
                   | some stats => saveStats st.statsDB w
                       { stats with multiplayer_wins := stats.multiplayer_wins + 1 }
                   | none => st.statsDB)
              | none => st.statsDB
            else st.statsDB)
          activeSessions := deleteAssoc st.activeSessions session.id },
       session.players.map (fun e =>
         (e.1, Frame.gameEnd winnerId
           (some (if reason = "gave_up" ∧ winnerId = some e.2.userId then
                   "opponent_gave_up" else reason))
           none (some (findAndEmitSolutions g tbl session 3)) none none))) := by
  rw [endGame.eq_def, if_neg hstatus]

/-- C6 amended: the stats increments depend on the terminal reason.  For
`path_found` (`handleMultiplayerWin`) the winner's `multiplayer_wins` and the
loser's `multiplayer_losses` are each incremented by one; for
`opponent_disconnected` only the winner's `multiplayer_wins` is incremented
and the loser's row is untouched; for `out_of_strikes` and `gave_up`
(including `handleGiveUp`) no stats are written at all. -/
theorem multiplayer_stats_by_reason (g : Graph) (tbl : List Player)
    (st : GMState) (session : GameSession) (path : List String)
    (k1 k2 u1 u2 : String) (s1 s2 : UserStats)
    (hplayers : session.players = [(k1, { userId := u1 }), (k2, { userId := u2 })])
    (hu : u1 ≠ u2)
    (h1 : findStats st.statsDB u1 = some s1)
    (h2 : findStats st.statsDB u2 = some s2)
    (hstatus : session.status ≠ Status.finished) :
    (findStats (handleMultiplayerWin g tbl st session u1 path).1.statsDB u1 =
        some { s1 with multiplayer_wins := s1.multiplayer_wins + 1 } ∧
      findStats (handleMultiplayerWin g tbl st session u1 path).1.statsDB u2 =
        some { s2 with multiplayer_losses := s2.multiplayer_losses + 1 }) ∧
    (findStats (endGame g tbl st session "opponent_disconnected" (some u1)).1.statsDB u1 =
        some { s1 with multiplayer_wins := s1.multiplayer_wins + 1 } ∧
      findStats (endGame g tbl st session "opponent_disconnected" (some u1)).1.statsDB u2 =
        some s2) ∧
    (endGame g tbl st session "out_of_strikes" (some u1)).1.statsDB = st.statsDB ∧
    (endGame g tbl st session "gave_up" (some u1)).1.statsDB = st.statsDB := by
  have hu21 : u2 ≠ u1 := Ne.symm hu
  have hne21 : findStats (saveStats st.statsDB u1
      { s1 with multiplayer_wins := s1.multiplayer_wins + 1 }) u2 = some s2 :=
    (findStats_saveStats_ne _ _ _ _ hu21).trans h2
  have hwin : (handleMultiplayerWin g tbl st session u1 path).1.statsDB =
      saveStats (saveStats st.statsDB u1
          { s1 with multiplayer_wins := s1.multiplayer_wins + 1 }) u2
        { s2 with multiplayer_losses := s2.multiplayer_losses + 1 } := by
    have hbody : (handleMultiplayerWin g tbl st session u1 path).1.statsDB =
        applyWinLoss u1 st.statsDB session.players := rfl
    rw [hbody, hplayers, applyWinLoss]
    simp [h1, hne21, hu21]
  refine ⟨⟨?_, ?_⟩, ⟨?_, ?_⟩, ?_, ?_⟩
  · rw [hwin, findStats_saveStats_ne _ _ _ _ hu, findStats_saveStats_self, h1]
    rfl
  · rw [hwin, findStats_saveStats_self, hne21]
    rfl
  · rw [endGame_statsDB g tbl st session _ _ hstatus, if_pos rfl]
    simp [h1, findStats_saveStats_self]
  · rw [endGame_statsDB g tbl st session _ _ hstatus, if_pos rfl]
    simp [h1, h2, findStats_saveStats_ne, hu21]
  · rw [endGame_statsDB g tbl st session _ _ hstatus, if_neg (by decide)]
  · rw [endGame_statsDB g tbl st session _ _ hstatus, if_neg (by decide)]

/-- Fixture: the two-player multiplayer session in the active state. -/
def exSessionMPActive : GameSession := { exSessionMP with status := Status.active }

/-- Fixture: registry holding the active multiplayer session. -/
def exStateMPActive : GMState :=
  { activeSessions := [("s1", exSessionMPActive)]
    waitingPlayers := []
    statsDB := [("u1", exStats0), ("u2", exStats0)] }

/-- C6 counterexample: after a `gave_up` termination with declared winner
`u2` (player A gives up), the winner's `multiplayer_wins` is NOT
incremented (and no loss is recorded either): the stats database is left at
its zeroed rows. -/
theorem giveUp_no_stats_increment :
    (handleGiveUp exGraph1 [] exStateMPActive "sockA" "s1").1.statsDB =
      [("u1", exStats0), ("u2", exStats0)] ∧
    findStats (handleGiveUp exGraph1 [] exStateMPActive "sockA" "s1").1.statsDB "u2" ≠
      some { exStats0 with multiplayer_wins := exStats0.multiplayer_wins + 1 } := by
  constructor
  · rfl
  · decide

/-- C6 witness: the per-reason stats theorem instantiated on the active
two-player session with zeroed stats rows. -/
theorem multiplayer_stats_by_reason_witness :
    (findStats (handleMultiplayerWin exGraph1 [] exStateMPActive exSessionMPActive
          "u1" ["x", "y"]).1.statsDB "u1" =
        some { exStats0 with multiplayer_wins := exStats0.multiplayer_wins + 1 } ∧
      findStats (handleMultiplayerWin exGraph1 [] exStateMPActive exSessionMPActive
          "u1" ["x", "y"]).1.statsDB "u2" =
        some { exStats0 with multiplayer_losses := exStats0.multiplayer_losses + 1 }) ∧
    (findStats (endGame exGraph1 [] exStateMPActive exSessionMPActive
          "opponent_disconnected" (some "u1")).1.statsDB "u1" =
        some { exStats0 with multiplayer_wins := exStats0.multiplayer_wins + 1 } ∧
      findStats (endGame exGraph1 [] exStateMPActive exSessionMPActive
          "opponent_disconnected" (some "u1")).1.statsDB "u2" = some exStats0) ∧
    (endGame exGraph1 [] exStateMPActive exSessionMPActive
        "out_of_strikes" (some "u1")).1.statsDB = exStateMPActive.statsDB ∧
    (endGame exGraph1 [] exStateMPActive exSessionMPActive
        "gave_up" (some "u1")).1.statsDB = exStateMPActive.statsDB :=
  multiplayer_stats_by_reason exGraph1 [] exStateMPActive exSessionMPActive
    ["x", "y"] "sockA" "sockB" "u1" "u2" exStats0 exStats0 rfl (by decide) rfl rfl
    (by decide)

/-- C7: a valid submission in an active single-player session emits exactly
one `gameEnd` frame, to the session's sole participant, carrying score
`max(0, 10000 − ⌊elapsedSeconds·10⌋ − edges·100)` where `elapsedSeconds` is
the time since session creation in seconds and `edges` is the path's node
count minus one, together with the elapsed time. -/
theorem submitPath_single_score (g : Graph) (tbl : List Player) (st : GMState)
    (sessionId socketId : String) (path : List String) (now : Nat)
    (session : GameSession) (pe e0 : String × PlayerInfo)
    (hlook : lookupSession st sessionId = some session)
    (hstatus : session.status = Status.active)
    (hmode : session.mode = GameMode.single)
    (hfind : session.players.find? (fun e => e.1 == socketId) = some pe)
    (hhead : session.players.head? = some e0)
    (hvalid : validatePath g path session.startPlayer.id session.endPlayer.id
      (getConnectionTypesForDifficulty session.difficulty) = true) :
    (submitPath g tbl st sessionId socketId path now).2 =
      [(e0.1, Frame.gameEnd (some pe.2.userId) (some "path_found")
        (some ((convertIdsToNames tbl [path]).headD [])) none
        (some (max 0 (10000 - ⌊(((now - session.startTime : Nat) : ℚ) / 1000) * 10⌋ -
          ((path.length : Int) - 1) * 100)))
        (some (((now - session.startTime : Nat) : ℚ) / 1000)))] := by
  have h1 : submitPath g tbl st sessionId socketId path now =
      handleSinglePlayerWin tbl st session pe.2.userId path now := by
    simp only [submitPath, hlook, hfind, hvalid, hstatus, hmode, if_true, ne_eq,
      not_true_eq_false, if_false, reduceCtorEq, ite_false, ite_true]
  rw [h1, handleSinglePlayerWin]
  simp only [hhead]

/-- Fixture: four-edge teammate chain from `"x"` to `"y"`. -/
def exGraphChain : Graph :=
  [{ player1_id := "x", player2_id := "u", connection_type := "teammate" },
   { player1_id := "u", player2_id := "v", connection_type := "teammate" },
   { player1_id := "v", player2_id := "w", connection_type := "teammate" },
   { player1_id := "w", player2_id := "y", connection_type := "teammate" }]

/-- Fixture: a single-player hard session from `"x"` to `"y"` created at
time 0. -/
def exSessionSingle : GameSession :=
  createSession "s2" [("sockC", { userId := "uC" })] GameMode.single
    Difficulty.hard exPlayerX exPlayerY 0

/-- Fixture: registry holding the single-player session. -/
def exStateSingle : GMState :=
  { activeSessions := [("s2", exSessionSingle)]
    waitingPlayers := []
    statsDB := [("uC", exStats0)] }

/-- C7 witness: a 5-node (4-edge) teammate chain submitted after 12 seconds
scores `10000 − 120 − 400 = 9480`. -/
theorem submitPath_single_score_witness :
    (submitPath exGraphChain [] exStateSingle "s2" "sockC"
        ["x", "u", "v", "w", "y"] 12000).2 =
      [("sockC", Frame.gameEnd (some "uC") (some "path_found")
        (some ["x", "u", "v", "w", "y"]) none (some 9480) (some 12))] := by
  have h := submitPath_single_score exGraphChain [] exStateSingle "s2" "sockC"
    ["x", "u", "v", "w", "y"] 12000 exSessionSingle
    ("sockC", { userId := "uC" }) ("sockC", { userId := "uC" })
    (by decide) (by decide) (by decide) (by decide) (by decide) (by decide)
  rw [h]
  norm_num [convertIdsToNames, exSessionSingle, createSession]

/-- C10: a participant's disconnect while the multiplayer session is still
in the waiting state is handled exactly like a mid-game disconnect —
`handleDisconnect` checks no session status: the session is removed, every
participant gets a `gameEnd` frame with reason `opponent_disconnected`
naming the remaining participant as winner, and that participant's
`multiplayer_wins` is incremented by one. -/
theorem handleDisconnect_waiting (g : Graph) (tbl : List Player) (st : GMState)
    (socketId sid : String) (session : GameSession)
    (winner : String × PlayerInfo) (s2 : UserStats)
    (hfind : (leaveQueue st socketId).activeSessions.find?
        (fun e => e.2.players.any (fun q => q.1 == socketId)) = some (sid, session))
    (hmode : session.mode = GameMode.multiplayer)
    (hstatus : session.status = Status.waiting)
    (hwin : session.players.find? (fun q => !(q.1 == socketId)) = some winner)
    (hstats : findStats st.statsDB winner.2.userId = some s2) :
    (handleDisconnect g tbl st socketId).1.activeSessions =
      deleteAssoc st.activeSessions session.id ∧
    (handleDisconnect g tbl st socketId).2 =
      session.players.map (fun e =>
        (e.1, Frame.gameEnd (some winner.2.userId) (some "opponent_disconnected")
          none (some (findAndEmitSolutions g tbl session 3)) none none)) ∧
    findStats (handleDisconnect g tbl st socketId).1.statsDB winner.2.userId =
      some { s2 with multiplayer_wins := s2.multiplayer_wins + 1 } := by
  have hst' : session.status ≠ Status.finished := by
    rw [hstatus]
    exact fun h => Status.noConfusion h
  have hrun : handleDisconnect g tbl st socketId =
      endGame g tbl (leaveQueue st socketId) session "opponent_disconnected"
        (some winner.2.userId) := by
    simp only [handleDisconnect, hfind, hmode, hwin, if_true]
  rw [hrun, endGame_run g tbl (leaveQueue st socketId) session _ _ hst']
  refine ⟨rfl, ?_, ?_⟩
  · simp
  · have hstats' : findStats (leaveQueue st socketId).statsDB winner.2.userId =
        some s2 := hstats
    show findStats
        (if ("opponent_disconnected" : String) = "opponent_disconnected" then
          match some winner.2.userId with
          | some w =>
              (match findStats (leaveQueue st socketId).statsDB w with
               | some stats => saveStats (leaveQueue st socketId).statsDB w
                   { stats with multiplayer_wins := stats.multiplayer_wins + 1 }
               | none => (leaveQueue st socketId).statsDB)
          | none => (leaveQueue st socketId).statsDB
        else (leaveQueue st socketId).statsDB) winner.2.userId =
      some { s2 with multiplayer_wins := s2.multiplayer_wins + 1 }
    rw [if_pos rfl]
    show findStats
        (match findStats (leaveQueue st socketId).statsDB winner.2.userId with
         | some stats => saveStats (leaveQueue st socketId).statsDB winner.2.userId
             { stats with multiplayer_wins := stats.multiplayer_wins + 1 }
         | none => (leaveQueue st socketId).statsDB) winner.2.userId =
      some { s2 with multiplayer_wins := s2.multiplayer_wins + 1 }
    rw [hstats']
    show findStats (saveStats (leaveQueue st socketId).statsDB winner.2.userId
        { s2 with multiplayer_wins := s2.multiplayer_wins + 1 }) winner.2.userId =
      some { s2 with multiplayer_wins := s2.multiplayer_wins + 1 }
    rw [findStats_saveStats_self, hstats']
    rfl

/-- C10 witness: player A of the waiting two-player session disconnects;
player B is declared winner with reason `opponent_disconnected` and B's
wins counter is incremented. -/
theorem handleDisconnect_waiting_witness :
    (handleDisconnect exGraph1 [] exStateMP "sockA").1.activeSessions =
      deleteAssoc exStateMP.activeSessions exSessionMP.id ∧
    (handleDisconnect exGraph1 [] exStateMP "sockA").2 =
      exSessionMP.players.map (fun e =>
        (e.1, Frame.gameEnd
          (some (("sockB", ({ userId := "u2" } : PlayerInfo))).2.userId)
          (some "opponent_disconnected")
          none (some (findAndEmitSolutions exGraph1 [] exSessionMP 3)) none none)) ∧
    findStats (handleDisconnect exGraph1 [] exStateMP "sockA").1.statsDB
        (("sockB", ({ userId := "u2" } : PlayerInfo))).2.userId =
      some { exStats0 with multiplayer_wins := exStats0.multiplayer_wins + 1 } :=
  handleDisconnect_waiting exGraph1 [] exStateMP "sockA" "s1" exSessionMP
    ("sockB", { userId := "u2" }) exStats0 (by decide) (by decide) (by decide)
    (by decide) (by decide)

theorem updateAssoc_updateAssoc (l : List (String × GameSession)) (k : String)
    (v w : GameSession) :
    updateAssoc (updateAssoc l k v) k w = updateAssoc l k w := by
  simp only [updateAssoc]
  exact map_if_map_if l k v w

theorem lookupSession_updateAssoc (st : GMState) (sessionId : String)
    (session v : GameSession)
    (hlook : lookupSession st sessionId = some session) :
    lookupSession
      { st with activeSessions := updateAssoc st.activeSessions sessionId v }
      sessionId = some v := by
  rw [lookupSession] at hlook
  obtain ⟨a, ha, -⟩ := Option.map_eq_some'.mp hlook
  show ((updateAssoc st.activeSessions sessionId v).find?
    (fun e => e.1 == sessionId)).map Prod.snd = some v
  rw [updateAssoc, find?_map_if, ha]
  rfl

theorem playerReady_fst_main (st : GMState) (socketId sessionId : String)
    (session session2 : GameSession)
    (hlook : lookupSession st sessionId = some session)
    (hmem : (session.players.any (fun e => e.1 == socketId)) = true)
    (hmode : session.mode = GameMode.multiplayer)
    (hs2 : session2 =
      (if (mapSet session.ready socketId true).all (fun e => e.2) then
        { session with ready := mapSet session.ready socketId true,
                       status := Status.active }
      else { session with ready := mapSet session.ready socketId true })) :
    (playerReady st socketId sessionId).1 =
      { st with activeSessions := updateAssoc st.activeSessions sessionId session2 } := by
  rw [hs2]
  simp only [playerReady, hlook]
  rw [if_neg (by simp [hmem]), if_neg (by simp [hmode])]

theorem playerReady_fst_fixpoint (st' : GMState) (socketId sessionId : String)
    (v : GameSession) (hlook2 : lookupSession st' sessionId = some v)
    (hplayers : v.players.any (fun e => e.1 == socketId) = true)
    (hmode : v.mode = GameMode.multiplayer)
    (hready : mapSet v.ready socketId true = v.ready)
    (hstatus : (v.ready.all (fun e => e.2)) = true → v.status = Status.active)
    (hupdate : updateAssoc st'.activeSessions sessionId v = st'.activeSessions) :
    (playerReady st' socketId sessionId).1 = st' := by
  have hs2 : v = (if (mapSet v.ready socketId true).all (fun e => e.2) then
      { v with ready := mapSet v.ready socketId true, status := Status.active }
      else { v with ready := mapSet v.ready socketId true }) := by
    rw [hready]
    by_cases hall : (v.ready.all (fun e => e.2)) = true
    · rw [if_pos hall, ← hstatus hall]
    · rw [if_neg hall]
  rw [playerReady_fst_main st' socketId sessionId v v hlook2 hplayers hmode hs2,
    hupdate]

/-- C8 amended: delivering the same `playerReady` event twice leaves the
session registry in exactly the state produced by delivering it once (the
ready flag, session status and registry entry are unchanged by the
duplicate), but the emitted frames are NOT the same: the duplicate event
re-emits `opponentReady` to the opponent (and `allPlayersReady` again when
everyone is ready), see the counterexample. -/
theorem playerReady_state_idempotent (st : GMState) (socketId sessionId : String) :
    (playerReady (playerReady st socketId sessionId).1 socketId sessionId).1 =
      (playerReady st socketId sessionId).1 := by
  cases hlook : lookupSession st sessionId with
  | none =>
      have h0 : playerReady st socketId sessionId = (st, []) := by
        simp only [playerReady, hlook]
      rw [h0]
      show (playerReady st socketId sessionId).1 = st
      rw [h0]
  | some session =>
      by_cases hmem : (session.players.any (fun e => e.1 == socketId)) = false
      · have h0 : playerReady st socketId sessionId = (st, []) := by
          simp only [playerReady, hlook, hmem, if_true]
        rw [h0]
        show (playerReady st socketId sessionId).1 = st
        rw [h0]
      · by_cases hmode : session.mode = GameMode.multiplayer
        swap
        · have h0 : playerReady st socketId sessionId = (st, []) := by
            simp only [playerReady, hlook]
            rw [if_neg hmem, if_pos hmode]
          rw [h0]
          show (playerReady st socketId sessionId).1 = st
          rw [h0]
        · have hmem' : (session.players.any (fun e => e.1 == socketId)) = true := by
            simpa using hmem
          by_cases hall : (mapSet session.ready socketId true).all (fun e => e.2) = true
          · rw [playerReady_fst_main st socketId sessionId session
              { session with ready := mapSet session.ready socketId true,
                             status := Status.active }
              hlook hmem' hmode (by rw [if_pos hall])]
            refine playerReady_fst_fixpoint _ socketId sessionId
              { session with ready := mapSet session.ready socketId true,
                             status := Status.active }
              (lookupSession_updateAssoc st sessionId session _ hlook)
              hmem' hmode (mapSet_idem _ _ _) (fun _ => rfl) ?_
            exact updateAssoc_updateAssoc _ _ _ _
          · rw [playerReady_fst_main st socketId sessionId session
              { session with ready := mapSet session.ready socketId true }
              hlook hmem' hmode (by rw [if_neg hall])]
            refine playerReady_fst_fixpoint _ socketId sessionId
              { session with ready := mapSet session.ready socketId true }
              (lookupSession_updateAssoc st sessionId session _ hlook)
              hmem' hmode (mapSet_idem _ _ _) (fun h => absurd h hall) ?_
            exact updateAssoc_updateAssoc _ _ _ _

/-- C8 counterexample: on a waiting two-player session, the frames emitted
by two consecutive identical `playerReady` events are not those of a single
event — the duplicate re-emits `opponentReady` to the opponent. -/
theorem playerReady_frames_not_idempotent :
    (playerReady exStateMP "sockA" "s1").2 ++
      (playerReady (playerReady exStateMP "sockA" "s1").1 "sockA" "s1").2 ≠
    (playerReady exStateMP "sockA" "s1").2 := by
  decide

end DeepPull
